import Mathlib

/-!
Shallow embedding of the Indian Property AI Predictor (`app.py`), a
form-driven price estimator: a startup artifact check, a static geography
catalog feeding two sorted selection lists, and a prediction engine that
guards on locality membership, encodes categorical fields, assembles a
9-field feature vector, invokes an opaque regression model and converts
the result to a display currency.

Numeric values (year, size, bedrooms, distance, model output, currency
conversion) are modelled as exact rationals; encoder codes as naturals.
The model artifact is an abstract function from feature vectors to a
result that may fail, and the five label encoders are their fitted label
lists.  The engine is instrumented: alongside its terminal result it
returns the list of labels handed to encoder `transform` calls and the
list of feature vectors handed to `model.predict`, so that "never calls
the model" and "field order of the vector passed to the model" are
directly statable.
-/

namespace PropertyPredictor

/-- A fitted sklearn `LabelEncoder`: the ordered list of labels it knows
(`classes_`).  `transform` maps a label to its index in `classes_` and
fails on an unseen label, as sklearn raises `ValueError`. -/
structure LabelEncoder where
  classes_ : List String
deriving DecidableEq

/-- Encode one label: its index in `classes_`, or an error for a label
not present (sklearn: "y contains previously unseen labels"). -/
def LabelEncoder.transform (e : LabelEncoder) (label : String) : Except String Nat :=
  match e.classes_.indexOf? label with
  | some i => Except.ok i
  | none => Except.error ("y contains previously unseen labels: " ++ label)

/-- The six artifact files checked at startup, in the order of
`required_files` in `app.py` line 10. -/
def required_files : List String :=
  ["ghormach_model.pkl", "le_country.pkl", "le_state.pkl",
   "le_city.pkl", "le_type.pkl", "le_condition.pkl"]

/-- The message `st.error` shows for a missing artifact (line 13). -/
def missingMessage (file : String) : String :=
  "Missing file: " ++ file ++ ". Please run `python train_model.py` first."

/-- Outcome of the startup artifact check: either the script halts with a
message (`st.error` followed by `st.stop`), or it proceeds to load the
artifacts and serve. -/
inductive StartupResult where
  | halted (message : String)
  | serving
deriving DecidableEq

/-- The startup loop of lines 11-14: walk `required_files` in order and
halt at the first file that does not exist; serve if all exist. -/
def startupCheck (fileExists : String → Bool) : StartupResult :=
  match required_files.find? (fun file => !(fileExists file)) with
  | some file => StartupResult.halted (missingMessage file)
  | none => StartupResult.serving

/-- The static geography catalog `indian_geography` (lines 26-57),
in source order: region paired with its locality list. -/
def indian_geography : List (String × List String) :=
  [("Andhra Pradesh", ["Visakhapatnam", "Vijayawada", "Guntur", "Nellore", "Tirupati"]),
   ("Arunachal Pradesh", ["Itanagar", "Tawang", "Naharlagun"]),
   ("Assam", ["Guwahati", "Silchar", "Dibrugarh", "Jorhat"]),
   ("Bihar", ["Patna", "Gaya", "Bhagalpur", "Muzaffarpur"]),
   ("Chhattisgarh", ["Raipur", "Bhilai", "Bilaspur"]),
   ("Goa", ["Panaji", "Margao", "Vasco da Gama"]),
   ("Gujarat", ["Ahmedabad", "Surat", "Vadodara", "Rajkot", "Gandhinagar"]),
   ("Haryana", ["Gurugram", "Faridabad", "Panipat", "Ambala"]),
   ("Himachal Pradesh", ["Shimla", "Manali", "Dharamshala"]),
   ("Jharkhand", ["Ranchi", "Jamshedpur", "Dhanbad"]),
   ("Karnataka", ["Bengaluru", "Mysuru", "Mangaluru", "Hubli", "Belagavi"]),
   ("Kerala", ["Thiruvananthapuram", "Kochi", "Kozhikode", "Thrissur"]),
   ("Madhya Pradesh", ["Indore", "Bhopal", "Jabalpur", "Gwalior"]),
   ("Maharashtra", ["Mumbai", "Pune", "Nagpur", "Nashik", "Thane"]),
   ("Manipur", ["Imphal", "Thoubal"]),
   ("Meghalaya", ["Shillong", "Tura"]),
   ("Mizoram", ["Aizawl", "Lunglei"]),
   ("Nagaland", ["Dimapur", "Kohima"]),
   ("Odisha", ["Bhubaneswar", "Cuttack", "Rourkela", "Puri"]),
   ("Punjab", ["Ludhiana", "Amritsar", "Jalandhar", "Patiala", "Chandigarh"]),
   ("Rajasthan", ["Jaipur", "Jodhpur", "Udaipur", "Kota", "Ajmer"]),
   ("Sikkim", ["Gangtok", "Namchi"]),
   ("Tamil Nadu", ["Chennai", "Coimbatore", "Madurai", "Tiruchirappalli"]),
   ("Telangana", ["Hyderabad", "Warangal", "Nizamabad"]),
   ("Tripura", ["Agartala", "Dharmanagar"]),
   ("Uttar Pradesh", ["Lucknow", "Kanpur", "Varanasi", "Agra", "Noida"]),
   ("Uttarakhand", ["Dehradun", "Haridwar", "Roorkee", "Rishikesh"]),
   ("West Bengal", ["Kolkata", "Howrah", "Darjeeling", "Siliguri"]),
   ("Delhi", ["New Delhi", "Delhi Cantonment"]),
   ("Jammu and Kashmir", ["Srinagar", "Jammu", "Anantnag"])]

/-- Strict lexicographic order on character lists by code point, the
order Python uses to compare strings. -/
def charListLt : List Char → List Char → Bool
  | [], [] => false
  | [], _ :: _ => true
  | _ :: _, [] => false
  | a :: as, b :: bs =>
    if a.toNat < b.toNat then true
    else if b.toNat < a.toNat then false
    else charListLt as bs

/-- Strict Python string order: code-point lexicographic. -/
def strLt (a b : String) : Bool :=
  charListLt a.data b.data

/-- Insert a string into an already ascending list, keeping it
ascending; an equal element is placed after existing ones, matching the
stability of Python `sorted`. -/
def insertAsc (a : String) : List String → List String
  | [] => [a]
  | b :: t => if strLt b a then b :: insertAsc a t else a :: b :: t

/-- Python `sorted` on a list of strings: a stable ascending sort by the
string order (code-point lexicographic), modelled as insertion sort. -/
def pySorted (l : List String) : List String :=
  l.foldr insertAsc []

/-- The "State" selection list (line 69):
`sorted(list(indian_geography.keys()))`. -/
def states : List String :=
  pySorted (indian_geography.map Prod.fst)

/-- The "City" selection list for a chosen state (line 74):
`sorted(indian_geography[selected_state])`; `none` models the `KeyError`
for a string that is not a catalog key. -/
def cities (selected_state : String) : Option (List String) :=
  (indian_geography.lookup selected_state).map pySorted

/-- The process-wide read-only state loaded once at startup (lines 17-22):
the opaque regression model and the five label encoders.  The model is an
abstract function from a feature vector to a scalar, which may fail. -/
structure Artifacts where
  model : List ℚ → Except String ℚ
  le_country : LabelEncoder
  le_state : LabelEncoder
  le_city : LabelEncoder
  le_type : LabelEncoder
  le_condition : LabelEncoder

/-- The fixed alternative cities of the advisory branch (line 101):
"Try selecting a city the AI has studied: Bengaluru, Mumbai, New Delhi,
Chennai, or Hyderabad." -/
def advisory_suggestions : List String :=
  ["Bengaluru", "Mumbai", "New Delhi", "Chennai", "Hyderabad"]

/-- The static conversion constant `exchange_rate = 86.50` (line 117). -/
def exchange_rate : ℚ := 865 / 10

/-- Python float formatting with `.0f` (lines 124 and 126): round to the
nearest integer, ties to the even integer. -/
def fmt0f (q : ℚ) : ℤ :=
  if q - ⌊q⌋ < 1 / 2 then ⌊q⌋
  else if 1 / 2 < q - ⌊q⌋ then ⌊q⌋ + 1
  else if ⌊q⌋ % 2 = 0 then ⌊q⌋ else ⌊q⌋ + 1

/-- Terminal states of one engine invocation: the advisory branch (lines
100-101, the locality name and the suggested cities), the success branch
(lines 115-126: the locality name of the subheader, the exact USD and INR
values, and the two whole-unit figures the metrics display), or the
caught-exception branch (line 129). -/
inductive EngineResult where
  | advisory (city : String) (suggestions : List String)
  | success (city : String) (usd inr : ℚ) (usd_display inr_display : ℤ)
  | failure (message : String)
deriving DecidableEq

/-- One click of "Calculate Property Value" (lines 97-129).  Returns the
terminal result together with the instrumentation pair: the list of
labels handed to encoder `transform` calls, in order, and the list of
feature vectors handed to `model.predict`.  The control flow mirrors the
source: the locality guard first (line 99), then inside `try` the five
`transform` calls in source order (lines 106-110), the feature row
`input_data` (line 112), the predict call (line 115), the conversion
(line 118), and the two displayed figures (lines 124, 126); any raised
error lands in the `except` branch (line 129). -/
def calculate (a : Artifacts) (selected_state selected_city : String)
    (year : ℚ) (prop_type : String) (size bedrooms : ℚ)
    (condition : String) (distance : ℚ) :
    EngineResult × List String × List (List ℚ) :=
  if selected_city ∉ a.le_city.classes_ then
    (EngineResult.advisory selected_city advisory_suggestions, [], [])
  else
    match a.le_country.transform "India" with
    | Except.error e =>
        (EngineResult.failure ("Prediction error: " ++ e), ["India"], [])
    | Except.ok country_enc =>
    match a.le_state.transform selected_state with
    | Except.error e =>
        (EngineResult.failure ("Prediction error: " ++ e),
         ["India", selected_state], [])
    | Except.ok state_enc =>
    match a.le_city.transform selected_city with
    | Except.error e =>
        (EngineResult.failure ("Prediction error: " ++ e),
         ["India", selected_state, selected_city], [])
    | Except.ok city_enc =>
    match a.le_type.transform prop_type with
    | Except.error e =>
        (EngineResult.failure ("Prediction error: " ++ e),
         ["India", selected_state, selected_city, prop_type], [])
    | Except.ok type_enc =>
    match a.le_condition.transform condition with
    | Except.error e =>
        (EngineResult.failure ("Prediction error: " ++ e),
         ["India", selected_state, selected_city, prop_type, condition], [])
    | Except.ok condition_enc =>
    let input_data : List ℚ :=
      [year, (country_enc : ℚ), (state_enc : ℚ), (city_enc : ℚ),
       (type_enc : ℚ), size, bedrooms, (condition_enc : ℚ), distance]
    match a.model input_data with
    | Except.error e =>
        (EngineResult.failure ("Prediction error: " ++ e),
         ["India", selected_state, selected_city, prop_type, condition],
         [input_data])
    | Except.ok prediction_usd =>
        let prediction_inr := prediction_usd * exchange_rate
        (EngineResult.success selected_city prediction_usd prediction_inr
           (fmt0f prediction_usd) (fmt0f prediction_inr),
         ["India", selected_state, selected_city, prop_type, condition],
         [input_data])

/-! Concrete stub artifacts used to exercise the theorems on closed
inputs: a model that sums its feature vector, and small fitted label
lists. -/

/-- A stub model for concrete runs: sums the feature vector. -/
def stubModel : List ℚ → Except String ℚ :=
  fun v => Except.ok (v.foldl (· + ·) 0)

/-- Concrete artifacts for closed instantiations. -/
def testArtifacts : Artifacts where
  model := stubModel
  le_country := ⟨["India"]⟩
  le_state := ⟨["Karnataka", "Maharashtra"]⟩
  le_city := ⟨["Bengaluru", "Chennai", "Hyderabad", "Mumbai", "New Delhi"]⟩
  le_type := ⟨["Apartment", "House"]⟩
  le_condition := ⟨["Good", "New"]⟩

/-- Concrete artifacts whose locality encoder knows no label at all, so
none of the advisory suggestions is a known label. -/
def bareArtifacts : Artifacts where
  model := stubModel
  le_country := ⟨["India"]⟩
  le_state := ⟨["Karnataka", "Maharashtra"]⟩
  le_city := ⟨[]⟩
  le_type := ⟨["Apartment", "House"]⟩
  le_condition := ⟨["Good", "New"]⟩

/-! Helper lemmas. -/

/-- A label present in `classes_` always encodes successfully. -/
theorem transform_ok_of_mem (e : LabelEncoder) (c : String)
    (h : c ∈ e.classes_) : ∃ i, e.transform c = Except.ok i := by
  unfold LabelEncoder.transform
  cases hi : e.classes_.indexOf? c with
  | some i => exact ⟨i, rfl⟩
  | none =>
    rcases List.indexOf?_eq_none_iff.mp hi c h with hc
    simp at hc

/-- The rounding of `fmt0f` lands within half a unit of its argument. -/
theorem fmt0f_nearest (q : ℚ) : |q - ((fmt0f q : ℤ) : ℚ)| ≤ 1 / 2 := by
  have h0 : ((⌊q⌋ : ℤ) : ℚ) ≤ q := Int.floor_le q
  have h1 : q < ⌊q⌋ + 1 := Int.lt_floor_add_one q
  unfold fmt0f
  split_ifs with ha hb hc <;> rw [abs_le] <;> push_cast <;> constructor <;> linarith

/-- On a list containing exactly one element satisfying the predicate,
`find?` returns that element. -/
theorem find?_of_unique {α : Type} (p : α → Bool) (l : List α) (f : α)
    (hf : f ∈ l) (hpf : p f = true)
    (huniq : ∀ g ∈ l, g ≠ f → p g = false) : l.find? p = some f := by
  induction l with
  | nil => cases hf
  | cons a t ih =>
    by_cases hpa : p a = true
    · have haf : a = f := by
        by_contra hne
        have := huniq a (List.mem_cons_self a t) hne
        rw [hpa] at this
        cases this
      rw [haf, List.find?_cons_of_pos _ hpf]
    · have hf' : f ∈ t := by
        rcases List.mem_cons.mp hf with h | h
        · rw [h] at hpf; exact absurd hpf hpa
        · exact h
      rw [List.find?_cons_of_neg _ (by simpa using hpa)]
      exact ih hf' (fun g hg hne => huniq g (List.mem_cons_of_mem _ hg) hne)

/-- The startup error message determines the file it names. -/
theorem missingMessage_injective {f g : String}
    (h : missingMessage f = missingMessage g) : f = g := by
  unfold missingMessage at h
  have hd := congrArg String.data h
  simp only [String.data_append, List.append_assoc] at hd
  exact String.ext (List.append_cancel_right (List.append_cancel_left hd))

/-! Claim theorems. -/

/-- C1: when the selected locality is not among the locality encoder's
known labels, the invocation returns the advisory result naming that
locality, hands no label to any encoder `transform` and no vector to
the model's `predict`, and terminates cleanly with this value (the
engine is a total function). -/
theorem unknown_locality_advisory (a : Artifacts)
    (selected_state selected_city : String) (year : ℚ) (prop_type : String)
    (size bedrooms : ℚ) (condition : String) (distance : ℚ)
    (h : selected_city ∉ a.le_city.classes_) :
    calculate a selected_state selected_city year prop_type size bedrooms
        condition distance =
      (EngineResult.advisory selected_city advisory_suggestions, [], []) := by
  unfold calculate
  rw [if_pos h]

/-- Closed instantiation of `unknown_locality_advisory` at
region "Sikkim", locality "Gangtok", against the stub artifacts. -/
theorem unknown_locality_advisory_witness :
    calculate testArtifacts "Sikkim" "Gangtok" 2024 "House" 100 3 "Good" 2 =
      (EngineResult.advisory "Gangtok" advisory_suggestions, [], []) :=
  unknown_locality_advisory testArtifacts "Sikkim" "Gangtok" 2024 "House"
    100 3 "Good" 2 (by decide)

/-- C2: whenever an invocation reaches the model, the single feature
vector handed to `predict` is assembled in exactly the order
`[Year, CountryCode, RegionCode, LocalityCode, TypeCode, SizeSqm,
Bedrooms, ConditionCode, DistanceKm]`, each field taken from the
corresponding raw input or encoder output. -/
theorem feature_vector_order (a : Artifacts)
    (selected_state selected_city : String) (year : ℚ) (prop_type : String)
    (size bedrooms : ℚ) (condition : String) (distance : ℚ)
    (country_enc state_enc city_enc type_enc condition_enc : ℕ)
    (hc : selected_city ∈ a.le_city.classes_)
    (h0 : a.le_country.transform "India" = Except.ok country_enc)
    (h1 : a.le_state.transform selected_state = Except.ok state_enc)
    (h2 : a.le_city.transform selected_city = Except.ok city_enc)
    (h3 : a.le_type.transform prop_type = Except.ok type_enc)
    (h4 : a.le_condition.transform condition = Except.ok condition_enc) :
    (calculate a selected_state selected_city year prop_type size bedrooms
        condition distance).2.2 =
      [[year, (country_enc : ℚ), (state_enc : ℚ), (city_enc : ℚ),
        (type_enc : ℚ), size, bedrooms, (condition_enc : ℚ), distance]] := by
  unfold calculate
  rw [if_neg (not_not_intro hc)]
  simp only [h0, h1, h2, h3, h4]
  cases hm : a.model [year, (country_enc : ℚ), (state_enc : ℚ), (city_enc : ℚ),
      (type_enc : ℚ), size, bedrooms, (condition_enc : ℚ), distance] <;>
    simp [hm]

/-- Closed instantiation of `feature_vector_order` at sentinel inputs
against the stub artifacts: the vector reaching the model is exactly
`[2024, 0, 1, 3, 1, 100, 3, 0, 2]`. -/
theorem feature_vector_order_witness :
    (calculate testArtifacts "Maharashtra" "Mumbai" 2024 "House" 100 3
        "Good" 2).2.2 = [[2024, 0, 1, 3, 1, 100, 3, 0, 2]] :=
  feature_vector_order testArtifacts "Maharashtra" "Mumbai" 2024 "House"
    100 3 "Good" 2 0 1 3 1 0 (by decide) rfl rfl rfl rfl rfl

/-- C3: when the selected locality is known to the locality encoder and
encoding and inference succeed, the invocation returns the success
result pairing the locality name with the base value, the display value
equal to the base value times the conversion constant `865 / 10`
(that is, exactly 86.5), and both displayed figures within half a unit
of the respective exact values. -/
theorem known_locality_success (a : Artifacts)
    (selected_state selected_city : String) (year : ℚ) (prop_type : String)
    (size bedrooms : ℚ) (condition : String) (distance : ℚ)
    (country_enc state_enc city_enc type_enc condition_enc : ℕ) (v : ℚ)
    (hc : selected_city ∈ a.le_city.classes_)
    (h0 : a.le_country.transform "India" = Except.ok country_enc)
    (h1 : a.le_state.transform selected_state = Except.ok state_enc)
    (h2 : a.le_city.transform selected_city = Except.ok city_enc)
    (h3 : a.le_type.transform prop_type = Except.ok type_enc)
    (h4 : a.le_condition.transform condition = Except.ok condition_enc)
    (hm : a.model [year, (country_enc : ℚ), (state_enc : ℚ), (city_enc : ℚ),
        (type_enc : ℚ), size, bedrooms, (condition_enc : ℚ), distance] =
      Except.ok v) :
    (calculate a selected_state selected_city year prop_type size bedrooms
        condition distance).1 =
      EngineResult.success selected_city v (v * exchange_rate)
        (fmt0f v) (fmt0f (v * exchange_rate)) ∧
    exchange_rate = 865 / 10 ∧
    |v - ((fmt0f v : ℤ) : ℚ)| ≤ 1 / 2 ∧
    |v * exchange_rate - ((fmt0f (v * exchange_rate) : ℤ) : ℚ)| ≤ 1 / 2 := by
  refine ⟨?_, rfl, fmt0f_nearest v, fmt0f_nearest _⟩
  unfold calculate
  rw [if_neg (not_not_intro hc)]
  simp only [h0, h1, h2, h3, h4, hm]

/-- Closed instantiation of `known_locality_success`: the stub model sums
the vector `[2024, 0, 1, 3, 1, 100, 3, 0, 2]` to 2134, and the result
carries 2134 and `2134 * exchange_rate`. -/
theorem known_locality_success_witness :
    (calculate testArtifacts "Maharashtra" "Mumbai" 2024 "House" 100 3
        "Good" 2).1 =
      EngineResult.success "Mumbai" 2134 (2134 * exchange_rate)
        (fmt0f 2134) (fmt0f (2134 * exchange_rate)) ∧
    exchange_rate = 865 / 10 ∧
    |(2134 : ℚ) - ((fmt0f 2134 : ℤ) : ℚ)| ≤ 1 / 2 ∧
    |(2134 : ℚ) * exchange_rate - ((fmt0f ((2134 : ℚ) * exchange_rate) : ℤ) : ℚ)| ≤ 1 / 2 :=
  known_locality_success testArtifacts "Maharashtra" "Mumbai" 2024 "House"
    100 3 "Good" 2 0 1 3 1 0 2134 (by decide) rfl rfl rfl rfl rfl
    (by norm_num [testArtifacts, stubModel, List.foldl])

/-- C4: past the locality guard, every failing invocation — an unknown
label raised by the country, region, property-type or condition encoder,
or a failure of the model's `predict` — ends in the single boundary
message "Prediction error: " followed by the underlying cause, and every
non-failing one in the success result; the engine is a total function,
so no such failure escapes the invocation. -/
theorem failure_caught_at_boundary (a : Artifacts)
    (selected_state selected_city : String) (year : ℚ) (prop_type : String)
    (size bedrooms : ℚ) (condition : String) (distance : ℚ)
    (hc : selected_city ∈ a.le_city.classes_) :
    (∃ v, (calculate a selected_state selected_city year prop_type size
        bedrooms condition distance).1 =
      EngineResult.success selected_city v (v * exchange_rate) (fmt0f v)
        (fmt0f (v * exchange_rate))) ∨
    (∃ cause, (calculate a selected_state selected_city year prop_type size
        bedrooms condition distance).1 =
      EngineResult.failure ("Prediction error: " ++ cause) ∧
      (a.le_country.transform "India" = Except.error cause ∨
       a.le_state.transform selected_state = Except.error cause ∨
       a.le_type.transform prop_type = Except.error cause ∨
       a.le_condition.transform condition = Except.error cause ∨
       ∃ input, a.model input = Except.error cause)) := by
  obtain ⟨ci, hci⟩ := transform_ok_of_mem a.le_city selected_city hc
  unfold calculate
  rw [if_neg (not_not_intro hc)]
  cases h0 : a.le_country.transform "India" with
  | error e => exact Or.inr ⟨e, by simp [h0], Or.inl rfl⟩
  | ok c0 =>
    cases h1 : a.le_state.transform selected_state with
    | error e => exact Or.inr ⟨e, by simp [h0, h1], Or.inr (Or.inl rfl)⟩
    | ok s0 =>
      cases h3 : a.le_type.transform prop_type with
      | error e =>
        exact Or.inr ⟨e, by simp [h0, h1, hci, h3], Or.inr (Or.inr (Or.inl rfl))⟩
      | ok t0 =>
        cases h4 : a.le_condition.transform condition with
        | error e =>
          exact Or.inr ⟨e, by simp [h0, h1, hci, h3, h4],
            Or.inr (Or.inr (Or.inr (Or.inl rfl)))⟩
        | ok k0 =>
          cases hm : a.model [year, (c0 : ℚ), (s0 : ℚ), (ci : ℚ), (t0 : ℚ),
              size, bedrooms, (k0 : ℚ), distance] with
          | error e =>
            exact Or.inr ⟨e, by simp [h0, h1, hci, h3, h4, hm],
              Or.inr (Or.inr (Or.inr (Or.inr ⟨_, hm⟩)))⟩
          | ok v => exact Or.inl ⟨v, by simp [h0, h1, hci, h3, h4, hm]⟩

/-- Closed instantiation of `failure_caught_at_boundary`: against the
stub artifacts at locality "Mumbai" the disjunction holds (here through
its success side). -/
theorem failure_caught_at_boundary_witness :
    (∃ v, (calculate testArtifacts "Maharashtra" "Mumbai" 2024 "House" 100 3
        "Good" 2).1 =
      EngineResult.success "Mumbai" v (v * exchange_rate) (fmt0f v)
        (fmt0f (v * exchange_rate))) ∨
    (∃ cause, (calculate testArtifacts "Maharashtra" "Mumbai" 2024 "House"
        100 3 "Good" 2).1 =
      EngineResult.failure ("Prediction error: " ++ cause) ∧
      (testArtifacts.le_country.transform "India" = Except.error cause ∨
       testArtifacts.le_state.transform "Maharashtra" = Except.error cause ∨
       testArtifacts.le_type.transform "House" = Except.error cause ∨
       testArtifacts.le_condition.transform "Good" = Except.error cause ∨
       ∃ input, testArtifacts.model input = Except.error cause)) :=
  failure_caught_at_boundary testArtifacts "Maharashtra" "Mumbai" 2024
    "House" 100 3 "Good" 2 (by decide)

/-- C8: the engine is deterministic — two invocations with identical
raw selections and identical loaded artifacts produce the same terminal
result, encode log and predict log. -/
theorem engine_deterministic (a1 a2 : Artifacts) (ss1 ss2 sc1 sc2 : String)
    (y1 y2 : ℚ) (pt1 pt2 : String) (sz1 sz2 bd1 bd2 : ℚ) (cd1 cd2 : String)
    (d1 d2 : ℚ) (ha : a1 = a2) (hss : ss1 = ss2) (hsc : sc1 = sc2)
    (hy : y1 = y2) (hpt : pt1 = pt2) (hsz : sz1 = sz2) (hbd : bd1 = bd2)
    (hcd : cd1 = cd2) (hd : d1 = d2) :
    calculate a1 ss1 sc1 y1 pt1 sz1 bd1 cd1 d1 =
      calculate a2 ss2 sc2 y2 pt2 sz2 bd2 cd2 d2 := by
  subst ha hss hsc hy hpt hsz hbd hcd hd
  rfl

/-- Closed instantiation of `engine_deterministic` on a concrete
selection against the stub artifacts. -/
theorem engine_deterministic_witness :
    calculate testArtifacts "Maharashtra" "Mumbai" 2024 "House" 100 3
        "Good" 2 =
      calculate testArtifacts "Maharashtra" "Mumbai" 2024 "House" 100 3
        "Good" 2 :=
  engine_deterministic testArtifacts testArtifacts "Maharashtra"
    "Maharashtra" "Mumbai" "Mumbai" 2024 2024 "House" "House" 100 100 3 3
    "Good" "Good" 2 2 rfl rfl rfl rfl rfl rfl rfl rfl rfl

/-- C9: the advisory suggestions are the fixed hardcoded five city names
Bengaluru, Mumbai, New Delhi, Chennai, Hyderabad — the same for any
selected region, any other inputs and any loaded artifacts whose
locality encoder does not know the selected locality, whether or not the
suggested cities are themselves labels those encoders know. -/
theorem advisory_suggestions_fixed (a1 a2 : Artifacts) (ss1 ss2 sc : String)
    (y1 y2 : ℚ) (pt1 pt2 : String) (sz1 sz2 bd1 bd2 : ℚ) (cd1 cd2 : String)
    (d1 d2 : ℚ) (h1 : sc ∉ a1.le_city.classes_)
    (h2 : sc ∉ a2.le_city.classes_) :
    (calculate a1 ss1 sc y1 pt1 sz1 bd1 cd1 d1).1 =
      EngineResult.advisory sc
        ["Bengaluru", "Mumbai", "New Delhi", "Chennai", "Hyderabad"] ∧
    (calculate a1 ss1 sc y1 pt1 sz1 bd1 cd1 d1).1 =
      (calculate a2 ss2 sc y2 pt2 sz2 bd2 cd2 d2).1 := by
  unfold calculate
  rw [if_pos h1, if_pos h2]
  exact ⟨rfl, rfl⟩

/-- Closed instantiation of `advisory_suggestions_fixed` at locality
"Gangtok" against two different artifact sets — the second one's
locality encoder knows no label at all, in particular none of the five
suggested cities — and two different regions. -/
theorem advisory_suggestions_fixed_witness :
    (calculate testArtifacts "Sikkim" "Gangtok" 2024 "House" 100 3
        "Good" 2).1 =
      EngineResult.advisory "Gangtok"
        ["Bengaluru", "Mumbai", "New Delhi", "Chennai", "Hyderabad"] ∧
    (calculate testArtifacts "Sikkim" "Gangtok" 2024 "House" 100 3
        "Good" 2).1 =
      (calculate bareArtifacts "Karnataka" "Gangtok" 2000 "Apartment" 10 1
        "New" 0).1 :=
  advisory_suggestions_fixed testArtifacts bareArtifacts "Sikkim"
    "Karnataka" "Gangtok" 2024 2000 "House" "Apartment" 100 10 3 1 "Good"
    "New" 2 0 (by decide) (by decide)

/-- C5: the startup loop checks the artifact files against the fixed
six-file list before any artifact is loaded; when exactly one file is
absent it halts with the message naming that artifact together with the
remediation step, and never reaches the serving state. -/
theorem startup_single_missing (fileExists : String → Bool) (f : String)
    (hf : f ∈ required_files) (hmiss : fileExists f = false)
    (hrest : ∀ g ∈ required_files, g ≠ f → fileExists g = true) :
    startupCheck fileExists = StartupResult.halted (missingMessage f) ∧
    startupCheck fileExists ≠ StartupResult.serving := by
  have hfind : required_files.find? (fun file => !(fileExists file)) = some f :=
    find?_of_unique _ _ f hf (by simp [hmiss])
      (fun g hg hne => by simp [hrest g hg hne])
  constructor
  · unfold startupCheck
    rw [hfind]
  · unfold startupCheck
    rw [hfind]
    simp

/-- Closed instantiation of `startup_single_missing` with only
`le_city.pkl` absent. -/
theorem startup_single_missing_witness :
    startupCheck (fun s => !(s == "le_city.pkl")) =
      StartupResult.halted (missingMessage "le_city.pkl") ∧
    startupCheck (fun s => !(s == "le_city.pkl")) ≠ StartupResult.serving :=
  startup_single_missing (fun s => !(s == "le_city.pkl")) "le_city.pkl"
    (by decide) (by decide) (by decide)

/-- C6: the region selection list is sorted ascending, and for every
region of the geography catalog the locality selection list offered for
it is defined, non-empty and sorted ascending. -/
theorem selection_lists_sorted :
    states.Pairwise (fun a b => strLt a b = true) ∧
    ∀ p ∈ indian_geography,
      ∃ l, cities p.1 = some l ∧ l ≠ [] ∧
        l.Pairwise (fun a b => strLt a b = true) := by
  constructor
  · decide
  · intro p hp
    fin_cases hp <;> exact ⟨_, rfl, by decide, by decide⟩

/-- Closed instantiation of `selection_lists_sorted` at the catalog
entry for Maharashtra. -/
theorem selection_lists_sorted_witness :
    states.Pairwise (fun a b => strLt a b = true) ∧
    (∃ l, cities "Maharashtra" = some l ∧ l ≠ [] ∧
      l.Pairwise (fun a b => strLt a b = true)) :=
  ⟨selection_lists_sorted.1,
   selection_lists_sorted.2
     ("Maharashtra", ["Mumbai", "Pune", "Nagpur", "Nashik", "Thane"])
     (by decide)⟩

/-- C7: in the geography catalog no locality name appears in the
locality lists of two different regions — every locality belongs to
exactly one region. -/
theorem locality_in_one_region :
    indian_geography.Pairwise (fun p q => ∀ c ∈ p.2, c ∉ q.2) := by
  decide

/-- C10: when more than one artifact file is absent, the startup check
stops at the first missing file of the fixed order: the halt message
names that file, and the name of any other missing file yields a
different message. -/
theorem startup_first_missing_only (fileExists : String → Bool)
    (f g : String)
    (hfind : required_files.find? (fun file => !(fileExists file)) = some f)
    (hg : g ∈ required_files) (hgmiss : fileExists g = false)
    (hne : g ≠ f) :
    startupCheck fileExists = StartupResult.halted (missingMessage f) ∧
    missingMessage g ≠ missingMessage f := by
  refine ⟨?_, fun h => hne (missingMessage_injective h)⟩
  unfold startupCheck
  rw [hfind]

/-- Closed instantiation of `startup_first_missing_only` with every
artifact file absent: the report names `ghormach_model.pkl`, the first
of the fixed order, and not the also-missing `le_city.pkl`. -/
theorem startup_first_missing_only_witness :
    startupCheck (fun _ => false) =
      StartupResult.halted (missingMessage "ghormach_model.pkl") ∧
    missingMessage "le_city.pkl" ≠ missingMessage "ghormach_model.pkl" :=
  startup_first_missing_only (fun _ => false) "ghormach_model.pkl"
    "le_city.pkl" (by decide) (by decide) rfl (by decide)

end PropertyPredictor
